import Mathlib

/-!
# Verification of the vibetunnel window-tracking core

Shallow embedding of `src/tauri/src-tauri/src/window_matcher.rs` and
`src/tauri/src-tauri/src/window_tracker.rs` (plus the two pure helpers of
`window_enumerator.rs` they call), and proofs of the frozen claims about them.

Modelling conventions:
* Machine integers (`u64` window ids, `u32` pids) are modelled as `Nat`; the
  only operations the code performs on them are equality tests and `max`, so
  no overflow can occur (the sole numeric parse, `parse::<u64>`, gets an
  explicit `< 2^64` bound).
* The platform process-table query `ProcessTracker::get_parent_process_id`
  is an external effect; it is passed in as a function `parent : Nat → Option Nat`
  (spec section 4.2: any failure yields `None`).
* Window enumeration (`WindowEnumerator::get_all_terminal_windows`), which the
  tracker re-runs on every attempt, is passed in as a family
  `snapshots : Nat → List WindowInfo` indexed by attempt number.
* The matcher's mutable `session_window_cache : HashMap<String, u64>` is
  modelled as an association list threaded through explicitly; `HashMap`
  insert/lookup/remove become `cacheInsert`/`cacheLookup`/`cacheErase`.
* The tracker's `session_window_map : HashMap<String, WindowInfo>` is likewise
  an association list (`SessionMap`) with `mapInsert`/`mapLookup`.
* `tokio::time::sleep` delays are recorded as cumulative millisecond offsets
  in the returned attempt trace rather than as real time.
-/

/-- Embeds `window_enumerator::WindowInfo`, the per-snapshot window record fed
to the matcher.  The `created_at : DateTime<Utc>` and `bounds` fields are
omitted: they are opaque payload, copied but never inspected by any matching
or tracking logic. -/
structure WindowInfo where
  window_id : Nat
  owner_pid : Nat
  terminal_app : String
  session_id : String
  tab_reference : Option String
  tab_id : Option String
  title : Option String
deriving DecidableEq

/-- Embeds `window_matcher::SessionInfo` (externally supplied session
identity). -/
structure SessionInfo where
  id : String
  pid : Option Nat
  working_dir : String
  name : Option String
  activity_status : Option String
deriving DecidableEq

/-- Substring containment on character lists: `needle` occurs contiguously in
`hay` (the empty needle occurs everywhere). -/
def listInfixOf (needle : List Char) : List Char → Bool
  | [] => needle.isEmpty
  | c :: rest => needle.isPrefixOf (c :: rest) || listInfixOf needle rest

/-- Rust `str::contains` (substring containment) on the character lists. -/
def strContains (hay needle : String) : Bool :=
  listInfixOf needle.data hay.data

/-- Embeds `WindowEnumerator::window_title_contains`: true iff the window has
a title and that title contains `ident` as a substring. -/
def window_title_contains (w : WindowInfo) (ident : String) : Bool :=
  match w.title with
  | some title => strContains title ident
  | none => false

/-- Split a character list on `'/'` (slash-separated components). Structural
recursion, so it reduces inside the kernel. -/
def splitSlash : List Char → List (List Char)
  | [] => [[]]
  | c :: rest =>
    let r := splitSlash rest
    if c = '/' then [] :: r
    else (c :: r.headD []) :: r.tail

/-- Models `std::path::Path::file_name().and_then(|n| n.to_str())` for the
Unix-style paths the code handles: the last path component after dropping
empty and `"."` components (Rust's component normalization), and `none` when
the path terminates in `".."` or has no normal component
(`""`, `"/"`, `"."`). -/
def pathFileName (p : String) : Option String :=
  match ((splitSlash p.data).filter
      (fun c => !c.isEmpty && c != ['.'])).getLast? with
  | some c => if c = ['.', '.'] then none else some (String.mk c)
  | none => none

/-- First character position at which `needle` occurs in `hay`
(Rust `str::find` restricted to a literal pattern). -/
def findSubstrPos : List Char → List Char → Option Nat
  | [], needle => if needle.isEmpty then some 0 else none
  | c :: rest, needle =>
    if needle.isPrefixOf (c :: rest) then some 0
    else (findSubstrPos rest needle).map (· + 1)

/-- Rust `str::parse::<u64>().ok()` on an all-digit candidate: `none` on the
empty string, a non-digit, or overflow past `2^64 - 1`. -/
def parseU64 (s : List Char) : Option Nat :=
  if s.isEmpty then none
  else if s.all Char.isDigit then
    let v := s.foldl (fun a c => a * 10 + (c.toNat - 48)) 0
    if v < 2 ^ 64 then some v else none
  else none

/-- Embeds `WindowEnumerator::extract_window_id`: finds the first occurrence
of `"window id "`, takes the maximal digit run right after it, and parses it
(Rust's `char::is_numeric` is modelled as `Char.isDigit`; the identifiers the
code feeds in are ASCII). -/
def extract_window_id (tab_reference : String) : Option Nat :=
  match findSubstrPos tab_reference.data "window id ".data with
  | some pos =>
    let idStr := tab_reference.data.drop (pos + 10)
    parseU64 (idStr.takeWhile Char.isDigit)
  | none => none

/-- The matcher's session → window-id cache (`HashMap<String, u64>`),
as an association list. -/
abbrev Cache := List (String × Nat)

def cacheLookup : Cache → String → Option Nat
  | [], _ => none
  | (k, v) :: rest, sid => if k = sid then some v else cacheLookup rest sid

def cacheErase : Cache → String → Cache
  | [], _ => []
  | (k, v) :: rest, sid =>
    if k = sid then cacheErase rest sid else (k, v) :: cacheErase rest sid

/-- `HashMap::insert` (replaces any previous binding for the key). -/
def cacheInsert (c : Cache) (k : String) (v : Nat) : Cache :=
  (k, v) :: cacheErase c k

/-- The cache-hit lookup performed first by both matcher entry points
(`window_matcher.rs` lines 40-45 and 165-170): fetch the cached id for the
session and re-validate it against the window list supplied *to this call*
(the full, unfiltered list in both entry points). -/
def cachedHit (cache : Cache) (session_id : String) (ws : List WindowInfo) :
    Option WindowInfo :=
  (cacheLookup cache session_id).bind fun cid =>
    ws.find? fun w => w.window_id == cid

/-- The ancestry walk of `find_window` (lines 62-95): the source checks the
immediate parent of the session pid, then runs a `while depth < 10` loop that
checks one further ancestor per iteration; unrolled, that is a fuel recursion
that examines `parent p`, then recurses from it, with fuel 11 in total
(1 parent check + 10 loop iterations).  Stops (returning `none`) when the
parent lookup fails; returns the first filtered window whose `owner_pid`
equals the nearest matching ancestor. -/
def ancestryFind (parent : Nat → Option Nat) (filtered : List WindowInfo) :
    Nat → Nat → Option WindowInfo
  | _, 0 => none
  | p, fuel + 1 =>
    match parent p with
    | none => none
    | some pp =>
      match filtered.find? (fun w => w.owner_pid == pp) with
      | some w => some w
      | none => ancestryFind parent filtered pp fuel

/-- Strategy 2 of `find_window` (lines 53-97): process-ancestry match,
gated on `session_info` and its `pid` being present. -/
def ancestryStrategy (parent : Nat → Option Nat)
    (session_info : Option SessionInfo) (filtered : List WindowInfo) :
    Option WindowInfo :=
  match session_info with
  | some si =>
    match si.pid with
    | some p => ancestryFind parent filtered p 11
    | none => none
  | none => none

/-- Strategy 3 of `find_window` (lines 100-116): first filtered window whose
title contains the final component of `working_dir` or the full path. -/
def titleStrategy (session_info : Option SessionInfo)
    (filtered : List WindowInfo) : Option WindowInfo :=
  match session_info with
  | some si =>
    let dir_name := (pathFileName si.working_dir).getD ""
    filtered.find? fun w =>
      window_title_contains w dir_name || window_title_contains w si.working_dir
  | none => none

/-- Strategy 4 of `find_window` (lines 119-131): Terminal.app only; parse the
tab reference and match the embedded window id against the filtered set. -/
def tabRefStrategy (terminal_app : String) (tab_reference : Option String)
    (filtered : List WindowInfo) : Option WindowInfo :=
  if terminal_app == "Terminal" then
    match tab_reference with
    | some tr =>
      match extract_window_id tr with
      | some wid => filtered.find? fun w => w.window_id == wid
      | none => none
    | none => none
  else none

/-- Strategy 5 of `find_window` (lines 134-145): iTerm2 only; first filtered
window whose title contains the tab id. -/
def tabIdStrategy (terminal_app : String) (tab_id : Option String)
    (filtered : List WindowInfo) : Option WindowInfo :=
  if terminal_app == "iTerm2" then
    match tab_id with
    | some ti => filtered.find? fun w => window_title_contains w ti
    | none => none
  else none

/-- Strategy 6 of `find_window` (lines 147-152): Rust
`Iterator::max_by_key(|w| w.window_id)` — the *last* window attaining the
maximal id (on ties the later element wins). -/
def maxByWindowId (ws : List WindowInfo) : Option WindowInfo :=
  ws.foldl
    (fun acc w =>
      match acc with
      | none => some w
      | some a => if a.window_id ≤ w.window_id then some w else some a)
    none

/-- The cache-miss cascade of `WindowMatcher::find_window` (strategies 2-6 in
source order, first hit wins).  Factored out of `WindowMatcher.find_window`
below; each arm's `self.session_window_cache.insert(session_id, w.window_id)`
in the source is performed uniformly on the cascade's result there, which is
equivalent because every successful arm inserts exactly the returned
window's id. -/
def findWindowCore (parent : Nat → Option Nat) (terminal_app : String)
    (session_info : Option SessionInfo) (tab_reference tab_id : Option String)
    (filtered : List WindowInfo) : Option WindowInfo :=
  match ancestryStrategy parent session_info filtered with
  | some w => some w
  | none =>
  match titleStrategy session_info filtered with
  | some w => some w
  | none =>
  match tabRefStrategy terminal_app tab_reference filtered with
  | some w => some w
  | none =>
  match tabIdStrategy terminal_app tab_id filtered with
  | some w => some w
  | none => maxByWindowId filtered

/-- Embeds `WindowMatcher::find_window` (lines 30-155).  The mutable matcher
state becomes explicit: the call returns the found window (if any) together
with the resulting cache.  Note the cache-hit validation (lines 40-45) runs
against the *unfiltered* `terminal_windows`, before the `terminal_app`
filter (lines 48-51) is applied. -/
def WindowMatcher.find_window (parent : Nat → Option Nat) (cache : Cache)
    (terminal_app session_id : String) (session_info : Option SessionInfo)
    (tab_reference tab_id : Option String)
    (terminal_windows : List WindowInfo) : Option WindowInfo × Cache :=
  match cachedHit cache session_id terminal_windows with
  | some w => (some w, cache)
  | none =>
    let filtered := terminal_windows.filter fun w => w.terminal_app == terminal_app
    match findWindowCore parent terminal_app session_info tab_reference tab_id
        filtered with
    | some w => (some w, cacheInsert cache session_id w.window_id)
    | none => (none, cache)

/-- The pid walk of `find_window_for_session` (lines 180-205): starting at the
session pid itself, check every window's owner against the current pid, then
step to the parent; stop on a missing parent or a root parent (pid 0 or 1);
`max_depth = 20` bounds the number of pids examined. -/
def pidWalk (parent : Nat → Option Nat) (ws : List WindowInfo) :
    Nat → Nat → Option WindowInfo
  | _, 0 => none
  | p, fuel + 1 =>
    match ws.find? (fun w => w.owner_pid == p) with
    | some w => some w
    | none =>
      match parent p with
      | some pp => if pp == 0 || pp == 1 then none else pidWalk parent ws pp fuel
      | none => none

/-- The pid walk of `find_window_for_session` as invoked (lines 173-208):
runs only when the session pid is present, starting from the pid itself with
`max_depth = 20`. -/
def pidWalkStrategy (parent : Nat → Option Nat) (pid : Option Nat)
    (ws : List WindowInfo) : Option WindowInfo :=
  match pid with
  | some p => pidWalk parent ws p 20
  | none => none

/-- The working-directory fallback of `find_window_for_session` (lines
210-234): first window whose title contains the final component of
`working_dir` or the full path (the closure reads `window.title` directly in
the source). -/
def dirTitleFind (working_dir : String) (ws : List WindowInfo) :
    Option WindowInfo :=
  let dir_name := (pathFileName working_dir).getD ""
  ws.find? fun w =>
    match w.title with
    | some title =>
      strContains title dir_name || strContains title working_dir
    | none => false

/-- The activity-status fallback of `find_window_for_session` (lines
236-253): only for a present, non-empty activity string; first window whose
title contains it. -/
def activityFind (activity_status : Option String) (ws : List WindowInfo) :
    Option WindowInfo :=
  match activity_status with
  | some act =>
    if act ≠ "" then
      ws.find? fun w =>
        match w.title with
        | some title => strContains title act
        | none => false
    else none
  | none => none

/-- The cache-miss cascade of `find_window_for_session` (pid walk, then
working-directory title match, then activity match), factored like
`findWindowCore`: each successful arm in the source inserts exactly the
returned window's id into the cache, so the insert is performed uniformly on
the cascade's result in `WindowMatcher.find_window_for_session` below. -/
def ffsCore (parent : Nat → Option Nat) (session_info : SessionInfo)
    (ws : List WindowInfo) : Option WindowInfo :=
  match pidWalkStrategy parent session_info.pid ws with
  | some w => some w
  | none =>
  match dirTitleFind session_info.working_dir ws with
  | some w => some w
  | none => activityFind session_info.activity_status ws

/-- Embeds `WindowMatcher::find_window_for_session` (lines 158-268): cache
re-validation against `all_windows`, then pid walk (depth 20, no
`terminal_app` filter), then working-directory title match, then
activity-status title match (only for a present, non-empty activity);
every success writes the cache, failure leaves it untouched. -/
def WindowMatcher.find_window_for_session (parent : Nat → Option Nat)
    (cache : Cache) (session_id : String) (session_info : SessionInfo)
    (all_windows : List WindowInfo) : Option WindowInfo × Cache :=
  match cachedHit cache session_id all_windows with
  | some w => (some w, cache)
  | none =>
    match ffsCore parent session_info all_windows with
    | some w => (some w, cacheInsert cache session_id w.window_id)
    | none => (none, cache)

/-- Embeds `window_tracker::WindowInfo`, the record stored in the tracker's
authoritative map (the `created_at` string and `bounds` copies are omitted,
as for the enumerator record: opaque payload). -/
structure TrackedWindow where
  window_id : Nat
  owner_pid : Nat
  terminal_app : String
  session_id : String
  tab_reference : Option String
  tab_id : Option String
  title : Option String
deriving DecidableEq

/-- The conversion performed by both tracker lookup paths
(`window_tracker.rs` lines 180-195 and 223-238): copy the matched window's
fields and stamp in the session id. -/
def toTracked (session_id : String) (w : WindowInfo) : TrackedWindow :=
  { window_id := w.window_id
    owner_pid := w.owner_pid
    terminal_app := w.terminal_app
    session_id := session_id
    tab_reference := w.tab_reference
    tab_id := w.tab_id
    title := w.title }

/-- The tracker's authoritative session → window map
(`HashMap<String, WindowInfo>`), as an association list. -/
abbrev SessionMap := List (String × TrackedWindow)

def mapLookup : SessionMap → String → Option TrackedWindow
  | [], _ => none
  | (k, v) :: rest, sid => if k = sid then some v else mapLookup rest sid

def mapErase : SessionMap → String → SessionMap
  | [], _ => []
  | (k, v) :: rest, sid =>
    if k = sid then mapErase rest sid else (k, v) :: mapErase rest sid

/-- `HashMap::insert` on the authoritative map. -/
def mapInsert (m : SessionMap) (k : String) (v : TrackedWindow) : SessionMap :=
  (k, v) :: mapErase m k

/-- Modelled from the spec: `api_client::SessionResponse` (the HTTP client is
not part of the sources provided; spec section 2 calls it "the HTTP client
that supplies the authoritative list of live sessions").
`update_from_sessions` reads only its session id field. -/
structure SessionResponse where
  id : String
deriving DecidableEq

/-- Embeds the tracker's private `find_window` (`window_tracker.rs` lines
155-199): enumerate (here: a supplied snapshot), call the matcher with
`session_info = None` (line 166 hardcodes `let session_info = None`), and
convert a hit into the tracker's record. -/
def WindowTracker.find_window (parent : Nat → Option Nat) (cache : Cache)
    (terminal_app session_id : String) (tab_reference tab_id : Option String)
    (terminal_windows : List WindowInfo) : Option TrackedWindow × Cache :=
  let r := WindowMatcher.find_window parent cache terminal_app session_id none
    tab_reference tab_id terminal_windows
  (r.1.map (toTracked session_id), r.2)

/-- Embeds the tracker's private `find_window_for_session` (lines 201-242):
builds the minimal `SessionInfo` (`pid = None`, `working_dir = ""`,
`name = None`, `activity_status = None`), runs the matcher's second entry
point, and converts a hit. -/
def WindowTracker.find_window_for_session (parent : Nat → Option Nat)
    (cache : Cache) (session_id : String) (all_windows : List WindowInfo) :
    Option TrackedWindow × Cache :=
  let si : SessionInfo :=
    { id := session_id
      pid := none
      working_dir := ""
      name := none
      activity_status := none }
  let r := WindowMatcher.find_window_for_session parent cache session_id si
    all_windows
  (r.1.map (toTracked session_id), r.2)

/-- The condition of `register_window`'s immediate-registration branch
(`window_tracker.rs` lines 56-57): the caller supplied a tab reference for
Terminal or a tab id for iTerm2. -/
def explicitIdentity (terminal_app : String)
    (tab_reference tab_id : Option String) : Bool :=
  (terminal_app == "Terminal" && tab_reference.isSome) ||
  (terminal_app == "iTerm2" && tab_id.isSome)

/-- One sleep-then-attempt loop of `register_window`: for each delay (ms),
sleep (recorded as a cumulative offset), enumerate (`snapshots k` for the
k-th attempt overall), match, and on success insert and stop.  Returns the
final map, the final matcher cache, and the cumulative offsets of the
attempts actually made. -/
def registerAttempts (parent : Nat → Option Nat)
    (snapshots : Nat → List WindowInfo) (session_id terminal_app : String)
    (tab_reference tab_id : Option String) :
    List Nat → Nat → Nat → SessionMap → Cache → SessionMap × Cache × List Nat
  | [], _, _, map, cache => (map, cache, [])
  | d :: ds, k, t, map, cache =>
    match WindowTracker.find_window parent cache terminal_app session_id
      tab_reference tab_id (snapshots k) with
    | (some w, cache2) => (mapInsert map session_id w, cache2, [t + d])
    | (none, cache2) =>
      let rest := registerAttempts parent snapshots session_id terminal_app
        tab_reference tab_id ds (k + 1) (t + d) map cache2
      (rest.1, rest.2.1, (t + d) :: rest.2.2)

/-- Cumulative delay offsets of a delay schedule starting from offset `t`:
the attempt trace `registerAttempts` produces when every attempt fails. -/
def cumOffsets : Nat → List Nat → List Nat
  | _, [] => []
  | t, d :: ds => (t + d) :: cumOffsets (t + d) ds

/-- Embeds `WindowTracker::register_window` (lines 46-80).  With an explicit
identity: one attempt after a fixed 500 ms sleep.  Otherwise: the progressive
schedule `delays = [0.5, 1.0, 2.0, 3.0]` seconds (here milliseconds), each
attempt preceded by its sleep, stopping at the first success; all failures
leave the map untouched and the call returns normally (no error channel
exists in the source either). -/
def register_window (parent : Nat → Option Nat)
    (snapshots : Nat → List WindowInfo) (map : SessionMap) (cache : Cache)
    (session_id terminal_app : String)
    (tab_reference tab_id : Option String) : SessionMap × Cache × List Nat :=
  if explicitIdentity terminal_app tab_reference tab_id then
    registerAttempts parent snapshots session_id terminal_app tab_reference
      tab_id [500] 0 0 map cache
  else
    registerAttempts parent snapshots session_id terminal_app tab_reference
      tab_id [500, 1000, 2000, 3000] 0 0 map cache

/-- Embeds `WindowTracker::focus_window` (lines 100-119): look up the
authoritative map, fail with the descriptive error when absent, otherwise
dispatch the platform activation call (abstracted as `activate`; its
`Result<(), String>` is `Except String Unit`).  The map is returned
unchanged on every path, as the source never writes it here. -/
def focus_window (activate : TrackedWindow → Except String Unit)
    (map : SessionMap) (session_id : String) :
    Except String Unit × SessionMap :=
  match mapLookup map session_id with
  | none => (Except.error ("No window registered for session: " ++ session_id), map)
  | some w => (activate w, map)

/-- The removal pass of `update_from_sessions` (lines 127-137): drop every
entry whose session id is not among the live ids (the source iterates the
tracked keys and removes the stale ones; on the association list this is a
filter keeping live keys). -/
def removePhase : SessionMap → List String → SessionMap
  | [], _ => []
  | (k, v) :: rest, live =>
    if live.contains k then (k, v) :: removePhase rest live
    else removePhase rest live

/-- The backfill pass of `update_from_sessions` (lines 140-151): for each
live session in order, if it has no entry in the (current) map, run one
`find_window_for_session` probe (the j-th probe overall enumerates
`snapshots j`) and insert on success.  Also returns the list of session ids
actually probed, in order. -/
def backfill (parent : Nat → Option Nat) (snapshots : Nat → List WindowInfo) :
    List SessionResponse → Nat → SessionMap → Cache →
    SessionMap × Cache × List String
  | [], _, map, cache => (map, cache, [])
  | s :: rest, k, map, cache =>
    match mapLookup map s.id with
    | some _ => backfill parent snapshots rest k map cache
    | none =>
      match WindowTracker.find_window_for_session parent cache s.id
        (snapshots k) with
      | (some w, cache2) =>
        let next :=
          backfill parent snapshots rest (k + 1) (mapInsert map s.id w) cache2
        (next.1, next.2.1, s.id :: next.2.2)
      | (none, cache2) =>
        let next := backfill parent snapshots rest (k + 1) map cache2
        (next.1, next.2.1, s.id :: next.2.2)

/-- Embeds `WindowTracker::update_from_sessions` (lines 122-152): removal
pass, then backfill pass over the live sessions. -/
def update_from_sessions (parent : Nat → Option Nat)
    (snapshots : Nat → List WindowInfo) (map : SessionMap) (cache : Cache)
    (sessions : List SessionResponse) : SessionMap × Cache × List String :=
  backfill parent snapshots sessions 0
    (removePhase map (sessions.map (fun s => s.id))) cache

/-- Ancestor at a given depth in the parent chain: depth 0 is the pid itself,
depth `k+1` is the parent of the depth-`k` ancestor (`none` once the chain
breaks).  Used to state the nearest-ancestor property of the ancestry walk. -/
def ancestorAt (parent : Nat → Option Nat) (p : Nat) : Nat → Option Nat
  | 0 => some p
  | k + 1 => (ancestorAt parent p k).bind parent

/-! ## Helper lemmas about the matcher -/

theorem cacheLookup_insert_self (c : Cache) (k : String) (v : Nat) :
    cacheLookup (cacheInsert c k v) k = some v := by
  simp [cacheInsert, cacheLookup]

theorem cachedHit_eq_none (cache : Cache) (sid : String)
    (ws : List WindowInfo)
    (h : ∀ cid, cacheLookup cache sid = some cid →
      ∀ w ∈ ws, w.window_id ≠ cid) :
    cachedHit cache sid ws = none := by
  unfold cachedHit
  cases hl : cacheLookup cache sid with
  | none => rfl
  | some cid =>
    show ws.find? (fun w => w.window_id == cid) = none
    apply List.find?_eq_none.mpr
    intro w hw
    simpa using h cid hl w hw

theorem ancestryFind_mem (parent : Nat → Option Nat)
    (ws : List WindowInfo) :
    ∀ fuel p w, ancestryFind parent ws p fuel = some w → w ∈ ws := by
  intro fuel
  induction fuel with
  | zero => intro p w h; simp [ancestryFind] at h
  | succ n ih =>
    intro p w h
    unfold ancestryFind at h
    split at h
    · exact absurd h (by simp)
    · split at h
      · next hf => cases h; exact List.mem_of_find?_eq_some hf
      · exact ih _ w h

theorem maxByWindowId_fold_mem (l : List WindowInfo) :
    ∀ (acc : Option WindowInfo) (w : WindowInfo),
      l.foldl
        (fun acc w =>
          match acc with
          | none => some w
          | some a => if a.window_id ≤ w.window_id then some w else some a)
        acc = some w → w ∈ l ∨ acc = some w := by
  induction l with
  | nil => intro acc w h; exact Or.inr h
  | cons v l ih =>
    intro acc w h
    rcases ih _ w h with hmem | hacc
    · exact Or.inl (List.mem_cons_of_mem v hmem)
    · cases acc with
      | none =>
        replace hacc : some v = some w := hacc
        cases hacc
        exact Or.inl (List.mem_cons_self _ _)
      | some a =>
        replace hacc :
            (if a.window_id ≤ v.window_id then some v else some a) = some w := hacc
        by_cases hle : a.window_id ≤ v.window_id
        · rw [if_pos hle] at hacc
          cases hacc
          exact Or.inl (List.mem_cons_self _ _)
        · rw [if_neg hle] at hacc
          exact Or.inr hacc

theorem maxByWindowId_mem (ws : List WindowInfo) (w : WindowInfo)
    (h : maxByWindowId ws = some w) : w ∈ ws := by
  rcases maxByWindowId_fold_mem ws none w h with hmem | hacc
  · exact hmem
  · exact absurd hacc (by simp)

theorem maxByWindowId_fold_le (l : List WindowInfo) :
    ∀ (acc : Option WindowInfo) (w : WindowInfo),
      l.foldl
        (fun acc w =>
          match acc with
          | none => some w
          | some a => if a.window_id ≤ w.window_id then some w else some a)
        acc = some w →
      (∀ v ∈ l, v.window_id ≤ w.window_id) ∧
      (∀ a, acc = some a → a.window_id ≤ w.window_id) := by
  induction l with
  | nil =>
    intro acc w h
    refine ⟨by simp, fun a ha => ?_⟩
    rw [ha] at h
    replace h : some a = some w := h
    cases h
    exact Nat.le_refl _
  | cons v l ih =>
    intro acc w h
    obtain ⟨hall, hacc⟩ := ih _ w h
    have hb : ∃ b, (match acc with
        | none => some v
        | some a => if a.window_id ≤ v.window_id then some v else some a) = some b ∧
        v.window_id ≤ b.window_id ∧
        (∀ a, acc = some a → a.window_id ≤ b.window_id) := by
      cases acc with
      | none => exact ⟨v, rfl, Nat.le_refl _, by simp⟩
      | some a =>
        by_cases hle : a.window_id ≤ v.window_id
        · refine ⟨v, ?_, Nat.le_refl _, ?_⟩
          · show (if a.window_id ≤ v.window_id then some v else some a) = some v
            rw [if_pos hle]
          · intro a' ha'
            cases ha'
            exact hle
        · refine ⟨a, ?_, Nat.le_of_lt (Nat.lt_of_not_le hle), ?_⟩
          · show (if a.window_id ≤ v.window_id then some v else some a) = some a
            rw [if_neg hle]
          · intro a' ha'
            cases ha'
            exact Nat.le_refl _
    obtain ⟨b, hbeq, hvb, haccb⟩ := hb
    have hbw : b.window_id ≤ w.window_id := hacc b hbeq
    constructor
    · intro u hu
      rcases List.mem_cons.mp hu with rfl | hu'
      · exact Nat.le_trans hvb hbw
      · exact hall u hu'
    · intro a ha
      exact Nat.le_trans (haccb a ha) hbw

theorem maxByWindowId_le (ws : List WindowInfo) (w : WindowInfo)
    (h : maxByWindowId ws = some w) :
    ∀ v ∈ ws, v.window_id ≤ w.window_id :=
  (maxByWindowId_fold_le ws none w h).1

theorem ancestryStrategy_mem (parent : Nat → Option Nat)
    (si : Option SessionInfo) (filtered : List WindowInfo) (w : WindowInfo)
    (h : ancestryStrategy parent si filtered = some w) : w ∈ filtered := by
  unfold ancestryStrategy at h
  cases si with
  | none => cases h
  | some s =>
    replace h : (match s.pid with
      | some p => ancestryFind parent filtered p 11
      | none => none) = some w := h
    cases hsp : s.pid with
    | none => rw [hsp] at h; cases h
    | some p =>
      rw [hsp] at h
      exact ancestryFind_mem parent filtered 11 p w h

theorem titleStrategy_mem (si : Option SessionInfo)
    (filtered : List WindowInfo) (w : WindowInfo)
    (h : titleStrategy si filtered = some w) : w ∈ filtered := by
  unfold titleStrategy at h
  cases si with
  | none => cases h
  | some s => exact List.mem_of_find?_eq_some h

theorem tabRefStrategy_mem (tapp : String) (tref : Option String)
    (filtered : List WindowInfo) (w : WindowInfo)
    (h : tabRefStrategy tapp tref filtered = some w) : w ∈ filtered := by
  unfold tabRefStrategy at h
  split at h
  · cases tref with
    | none => cases h
    | some tr =>
      replace h : (match extract_window_id tr with
        | some wid => filtered.find? fun w => w.window_id == wid
        | none => none) = some w := h
      cases hx : extract_window_id tr with
      | none => rw [hx] at h; cases h
      | some wid =>
        rw [hx] at h
        exact List.mem_of_find?_eq_some h
  · cases h

theorem tabIdStrategy_mem (tapp : String) (tid : Option String)
    (filtered : List WindowInfo) (w : WindowInfo)
    (h : tabIdStrategy tapp tid filtered = some w) : w ∈ filtered := by
  unfold tabIdStrategy at h
  split at h
  · cases tid with
    | none => cases h
    | some ti => exact List.mem_of_find?_eq_some h
  · cases h

theorem findWindowCore_mem (parent : Nat → Option Nat) (tapp : String)
    (si : Option SessionInfo) (tref tid : Option String)
    (filtered : List WindowInfo) (w : WindowInfo)
    (h : findWindowCore parent tapp si tref tid filtered = some w) :
    w ∈ filtered := by
  unfold findWindowCore at h
  split at h
  · next ha => cases h; exact ancestryStrategy_mem parent si filtered w ha
  · split at h
    · next ht => cases h; exact titleStrategy_mem si filtered w ht
    · split at h
      · next htr => cases h; exact tabRefStrategy_mem tapp tref filtered w htr
      · split at h
        · next hti => cases h; exact tabIdStrategy_mem tapp tid filtered w hti
        · exact maxByWindowId_mem filtered w h

theorem find_window_hit (parent : Nat → Option Nat) (cache : Cache)
    (tapp sid : String) (si : Option SessionInfo) (tref tid : Option String)
    (ws : List WindowInfo) (w : WindowInfo)
    (h : cachedHit cache sid ws = some w) :
    WindowMatcher.find_window parent cache tapp sid si tref tid ws =
      (some w, cache) := by
  unfold WindowMatcher.find_window
  rw [h]

theorem find_window_miss_some (parent : Nat → Option Nat) (cache : Cache)
    (tapp sid : String) (si : Option SessionInfo) (tref tid : Option String)
    (ws : List WindowInfo) (w : WindowInfo)
    (hmiss : cachedHit cache sid ws = none)
    (hcore : findWindowCore parent tapp si tref tid
      (ws.filter fun w => w.terminal_app == tapp) = some w) :
    WindowMatcher.find_window parent cache tapp sid si tref tid ws =
      (some w, cacheInsert cache sid w.window_id) := by
  unfold WindowMatcher.find_window
  rw [hmiss]
  simp only
  rw [hcore]

theorem find_window_miss_none (parent : Nat → Option Nat) (cache : Cache)
    (tapp sid : String) (si : Option SessionInfo) (tref tid : Option String)
    (ws : List WindowInfo)
    (hmiss : cachedHit cache sid ws = none)
    (hcore : findWindowCore parent tapp si tref tid
      (ws.filter fun w => w.terminal_app == tapp) = none) :
    WindowMatcher.find_window parent cache tapp sid si tref tid ws =
      (none, cache) := by
  unfold WindowMatcher.find_window
  rw [hmiss]
  simp only
  rw [hcore]

theorem find_window_fst_none (parent : Nat → Option Nat) (cache : Cache)
    (tapp sid : String) (si : Option SessionInfo) (tref tid : Option String)
    (ws : List WindowInfo)
    (h : (WindowMatcher.find_window parent cache tapp sid si tref tid ws).1 = none) :
    WindowMatcher.find_window parent cache tapp sid si tref tid ws =
      (none, cache) := by
  cases hhit : cachedHit cache sid ws with
  | some w => rw [find_window_hit parent cache tapp sid si tref tid ws w hhit] at h ⊢; cases h
  | none =>
    cases hcore : findWindowCore parent tapp si tref tid
        (ws.filter fun w => w.terminal_app == tapp) with
    | some w =>
      rw [find_window_miss_some parent cache tapp sid si tref tid ws w hhit hcore] at h
      cases h
    | none => exact find_window_miss_none parent cache tapp sid si tref tid ws hhit hcore

theorem cachedHit_lookup (cache : Cache) (sid : String)
    (ws : List WindowInfo) (w : WindowInfo)
    (h : cachedHit cache sid ws = some w) :
    cacheLookup cache sid = some w.window_id := by
  unfold cachedHit at h
  cases hl : cacheLookup cache sid with
  | none => rw [hl] at h; cases h
  | some cid =>
    rw [hl] at h
    replace h : ws.find? (fun w => w.window_id == cid) = some w := h
    have hp := List.find?_some h
    simp only [beq_iff_eq] at hp
    rw [hp]

/-! ## Claims -/

/-- Claim C1 is false on the code: the cache-hit validation
(`window_matcher.rs` line 41) searches the full `terminal_windows` list,
*before* the `terminal_app` filter is applied (line 48).  Concretely: the
cache maps session "s" to window id 42, the only supplied window has id 42
but belongs to "iTerm2" while the requested terminal is "Terminal" — the
filtered set is empty, yet `find_window` returns the cached window instead
of `None`. -/
theorem C1_counterexample :
    (WindowMatcher.find_window (fun _ => none) [("s", 42)] "Terminal" "s"
        none none none [⟨42, 1, "iTerm2", "", none, none, none⟩]).1 =
      some ⟨42, 1, "iTerm2", "", none, none, none⟩ ∧
    ([(⟨42, 1, "iTerm2", "", none, none, none⟩ : WindowInfo)].filter
      fun w => w.terminal_app == "Terminal") = [] := by
  decide

/-- Claim C1, amended: the cache-hit strategy returns the cached window iff
its id is present among *all* supplied windows (the unfiltered list); when
the filtered set is empty and no cached id matches any supplied window,
`find_window` returns `None` regardless of `session_info`, `tab_reference`
and `tab_id`. -/
theorem C1_amended_cache_hit_unfiltered (parent : Nat → Option Nat)
    (cache : Cache) (tapp sid : String) (si : Option SessionInfo)
    (tref tid : Option String) (ws : List WindowInfo) :
    (cachedHit cache sid ws = none →
      (ws.filter fun w => w.terminal_app == tapp) = [] →
      (WindowMatcher.find_window parent cache tapp sid si tref tid ws).1 = none) ∧
    (∀ w, cachedHit cache sid ws = some w →
      WindowMatcher.find_window parent cache tapp sid si tref tid ws =
        (some w, cache)) := by
  constructor
  · intro hmiss hfil
    cases hcore : findWindowCore parent tapp si tref tid
        (ws.filter fun w => w.terminal_app == tapp) with
    | some w =>
      have := findWindowCore_mem parent tapp si tref tid _ w hcore
      rw [hfil] at this
      cases this
    | none =>
      rw [find_window_miss_none parent cache tapp sid si tref tid ws hmiss hcore]
  · intro w hhit
    exact find_window_hit parent cache tapp sid si tref tid ws w hhit

/-- Witness for the amended C1, at concrete inputs for both conjuncts. -/
theorem C1_witness :
    (WindowMatcher.find_window (fun _ => none) [] "Terminal" "s" none none none
      [⟨42, 1, "iTerm2", "", none, none, none⟩]).1 = none ∧
    WindowMatcher.find_window (fun _ => none) [("s", 42)] "Terminal" "s" none
        none none [⟨42, 1, "iTerm2", "", none, none, none⟩] =
      (some ⟨42, 1, "iTerm2", "", none, none, none⟩, [("s", 42)]) := by
  constructor
  · exact (C1_amended_cache_hit_unfiltered (fun _ => none) [] "Terminal" "s"
      none none none [⟨42, 1, "iTerm2", "", none, none, none⟩]).1
      (by decide) (by decide)
  · exact (C1_amended_cache_hit_unfiltered (fun _ => none) [("s", 42)]
      "Terminal" "s" none none none
      [⟨42, 1, "iTerm2", "", none, none, none⟩]).2 _ (by decide)

/-- Claim C2: with the cache mapping the session to id 42 and a snapshot in
which no window has id 42, `find_window` never returns a window with id 42,
and its result is exactly that of the remaining strategy cascade
(ancestry, title, tab, fallback) evaluated on the current snapshot. -/
theorem C2_stale_cache_falls_through (parent : Nat → Option Nat)
    (cache : Cache) (tapp sid : String) (si : Option SessionInfo)
    (tref tid : Option String) (ws : List WindowInfo)
    (hc : cacheLookup cache sid = some 42)
    (hno : ∀ w ∈ ws, w.window_id ≠ 42) :
    (∀ w, (WindowMatcher.find_window parent cache tapp sid si tref tid ws).1 =
        some w → w.window_id ≠ 42) ∧
    (WindowMatcher.find_window parent cache tapp sid si tref tid ws).1 =
      findWindowCore parent tapp si tref tid
        (ws.filter fun w => w.terminal_app == tapp) := by
  have hmiss : cachedHit cache sid ws = none := by
    apply cachedHit_eq_none
    intro cid hcid w hw
    rw [hc] at hcid
    cases hcid
    exact hno w hw
  cases hcore : findWindowCore parent tapp si tref tid
      (ws.filter fun w => w.terminal_app == tapp) with
  | some w =>
    rw [find_window_miss_some parent cache tapp sid si tref tid ws w hmiss hcore]
    refine ⟨?_, rfl⟩
    intro w2 hw2
    injection hw2 with he
    subst he
    exact hno w (List.mem_of_mem_filter
      (findWindowCore_mem parent tapp si tref tid _ w hcore))
  | none =>
    rw [find_window_miss_none parent cache tapp sid si tref tid ws hmiss hcore]
    exact ⟨fun w hw => Option.noConfusion hw, rfl⟩

/-- Witness for C2: cache maps "s1" to 42, the snapshot holds only window
id 7; the call returns the id-7 window by the fallback cascade. -/
theorem C2_witness :
    (∀ w, (WindowMatcher.find_window (fun _ => none) [("s1", 42)] "Terminal"
        "s1" none none none [⟨7, 1, "Terminal", "", none, none, none⟩]).1 =
        some w → w.window_id ≠ 42) ∧
    (WindowMatcher.find_window (fun _ => none) [("s1", 42)] "Terminal" "s1"
        none none none [⟨7, 1, "Terminal", "", none, none, none⟩]).1 =
      findWindowCore (fun _ => none) "Terminal" none none none
        ([⟨7, 1, "Terminal", "", none, none, none⟩].filter
          fun w => w.terminal_app == "Terminal") :=
  C2_stale_cache_falls_through (fun _ => none) [("s1", 42)] "Terminal" "s1"
    none none none [⟨7, 1, "Terminal", "", none, none, none⟩] (by decide)
    (by decide)

/-- Claim C9: whenever `find_window` returns `some w` — by any strategy,
the cache hit included — the resulting cache maps the session id to
`w.window_id`; when it returns `none`, the cache entry for the session id
is unchanged. -/
theorem C9_cache_entry_after_call (parent : Nat → Option Nat) (cache : Cache)
    (tapp sid : String) (si : Option SessionInfo) (tref tid : Option String)
    (ws : List WindowInfo) :
    (∀ w, (WindowMatcher.find_window parent cache tapp sid si tref tid ws).1 =
        some w →
      cacheLookup
        (WindowMatcher.find_window parent cache tapp sid si tref tid ws).2 sid =
        some w.window_id) ∧
    ((WindowMatcher.find_window parent cache tapp sid si tref tid ws).1 = none →
      cacheLookup
        (WindowMatcher.find_window parent cache tapp sid si tref tid ws).2 sid =
        cacheLookup cache sid) := by
  cases hhit : cachedHit cache sid ws with
  | some w0 =>
    rw [find_window_hit parent cache tapp sid si tref tid ws w0 hhit]
    constructor
    · intro w hw
      injection hw with he
      subst he
      exact cachedHit_lookup cache sid ws w0 hhit
    · intro h
      cases h
  | none =>
    cases hcore : findWindowCore parent tapp si tref tid
        (ws.filter fun w => w.terminal_app == tapp) with
    | some w0 =>
      rw [find_window_miss_some parent cache tapp sid si tref tid ws w0 hhit hcore]
      constructor
      · intro w hw
        injection hw with he
        subst he
        exact cacheLookup_insert_self cache sid w0.window_id
      · intro h
        cases h
    | none =>
      rw [find_window_miss_none parent cache tapp sid si tref tid ws hhit hcore]
      exact ⟨fun w hw => Option.noConfusion hw, fun _ => rfl⟩

/-- Witness for C9: a successful fallback match writes the cache entry, and
a call over an empty snapshot returns `none` leaving the (empty) cache's
entry unchanged. -/
theorem C9_witness :
    cacheLookup (WindowMatcher.find_window (fun _ => none) [] "Terminal" "s"
      none none none [⟨7, 1, "Terminal", "", none, none, none⟩]).2 "s" =
      some 7 ∧
    cacheLookup (WindowMatcher.find_window (fun _ => none) [] "Terminal" "s"
      none none none []).2 "s" = cacheLookup [] "s" := by
  constructor
  · exact (C9_cache_entry_after_call (fun _ => none) [] "Terminal" "s" none
      none none [⟨7, 1, "Terminal", "", none, none, none⟩]).1
      ⟨7, 1, "Terminal", "", none, none, none⟩ (by decide)
  · exact (C9_cache_entry_after_call (fun _ => none) [] "Terminal" "s" none
      none none []).2 (by decide)

/-- Claim C10: when the cache misses and the ancestry, title, tab-reference
and tab-id strategies all fail, `find_window` returns the filtered window
with the numerically largest window id. -/
theorem C10_max_id_fallback (parent : Nat → Option Nat) (cache : Cache)
    (tapp sid : String) (si : Option SessionInfo) (tref tid : Option String)
    (ws : List WindowInfo)
    (hmiss : cachedHit cache sid ws = none)
    (hanc : ancestryStrategy parent si
      (ws.filter fun w => w.terminal_app == tapp) = none)
    (htitle : titleStrategy si
      (ws.filter fun w => w.terminal_app == tapp) = none)
    (htr : tabRefStrategy tapp tref
      (ws.filter fun w => w.terminal_app == tapp) = none)
    (hti : tabIdStrategy tapp tid
      (ws.filter fun w => w.terminal_app == tapp) = none) :
    (WindowMatcher.find_window parent cache tapp sid si tref tid ws).1 =
      maxByWindowId (ws.filter fun w => w.terminal_app == tapp) ∧
    (∀ w, maxByWindowId (ws.filter fun w => w.terminal_app == tapp) = some w →
      ∀ v ∈ ws.filter (fun w => w.terminal_app == tapp),
        v.window_id ≤ w.window_id) := by
  have hcore : findWindowCore parent tapp si tref tid
      (ws.filter fun w => w.terminal_app == tapp) =
      maxByWindowId (ws.filter fun w => w.terminal_app == tapp) := by
    unfold findWindowCore
    rw [hanc, htitle, htr, hti]
  constructor
  · cases hmax : maxByWindowId (ws.filter fun w => w.terminal_app == tapp) with
    | some w =>
      rw [find_window_miss_some parent cache tapp sid si tref tid ws w hmiss
        (hcore.trans hmax)]
    | none =>
      rw [find_window_miss_none parent cache tapp sid si tref tid ws hmiss
        (hcore.trans hmax)]
  · intro w hw
    exact maxByWindowId_le _ w hw

/-- Witness for C10: filtered windows with ids 3, 7, 5 and no other strategy
matching — the id-7 window is returned. -/
theorem C10_witness :
    (WindowMatcher.find_window (fun _ => none) [] "Terminal" "s" none none none
      [⟨3, 1, "Terminal", "", none, none, none⟩,
       ⟨7, 1, "Terminal", "", none, none, none⟩,
       ⟨5, 1, "Terminal", "", none, none, none⟩]).1 =
      some ⟨7, 1, "Terminal", "", none, none, none⟩ := by
  have h := (C10_max_id_fallback (fun _ => none) [] "Terminal" "s" none none
    none
    [⟨3, 1, "Terminal", "", none, none, none⟩,
     ⟨7, 1, "Terminal", "", none, none, none⟩,
     ⟨5, 1, "Terminal", "", none, none, none⟩]
    (by decide) (by decide) (by decide) (by decide) (by decide)).1
  rw [h]
  decide

theorem ancestorAt_one (parent : Nat → Option Nat) (p : Nat) :
    ancestorAt parent p 1 = parent p := rfl

theorem ancestorAt_succ_shift (parent : Nat → Option Nat) (p k : Nat) :
    ancestorAt parent p (k + 1) =
      (parent p).bind fun a => ancestorAt parent a k := by
  induction k with
  | zero =>
    show parent p = (parent p).bind fun a => some a
    cases parent p <;> rfl
  | succ n ih =>
    show (ancestorAt parent p (n + 1)).bind parent = _
    rw [ih]
    cases parent p <;> rfl

theorem ancestorAt_add (parent : Nat → Option Nat) (p a : Nat) :
    ∀ b, ancestorAt parent p (a + b) =
      (ancestorAt parent p a).bind fun r => ancestorAt parent r b := by
  intro b
  induction b with
  | zero =>
    show ancestorAt parent p a = (ancestorAt parent p a).bind fun r => some r
    cases ancestorAt parent p a <;> rfl
  | succ n ih =>
    show (ancestorAt parent p (a + n)).bind parent = _
    rw [ih]
    cases ancestorAt parent p a <;> rfl

theorem ancestorAt_isSome_of_le (parent : Nat → Option Nat) (p d k q : Nat)
    (h : ancestorAt parent p d = some q) (hk : k ≤ d) :
    ∃ r, ancestorAt parent p k = some r := by
  have hd : d = k + (d - k) := by omega
  rw [hd, ancestorAt_add] at h
  cases hr : ancestorAt parent p k with
  | none => rw [hr] at h; cases h
  | some r => exact ⟨r, rfl⟩

theorem ancestryFind_of_nearest (parent : Nat → Option Nat)
    (filtered : List WindowInfo) :
    ∀ fuel p d q w, 1 ≤ d → d ≤ fuel →
      ancestorAt parent p d = some q →
      filtered.find? (fun x => x.owner_pid == q) = some w →
      (∀ k q2, 1 ≤ k → k < d → ancestorAt parent p k = some q2 →
        filtered.find? (fun x => x.owner_pid == q2) = none) →
      ancestryFind parent filtered p fuel = some w := by
  intro fuel
  induction fuel with
  | zero => intro p d q w h1 h2 _ _ _; omega
  | succ n ih =>
    intro p d q w h1 h2 hanc hfind hnear
    obtain ⟨a1, ha1⟩ : ∃ a1, parent p = some a1 := by
      obtain ⟨r, hr⟩ := ancestorAt_isSome_of_le parent p d 1 q hanc h1
      exact ⟨r, by rw [← ancestorAt_one parent p]; exact hr⟩
    unfold ancestryFind
    rw [ha1]
    show (match filtered.find? (fun x => x.owner_pid == a1) with
      | some w => some w
      | none => ancestryFind parent filtered a1 n) = some w
    rcases Nat.lt_or_ge 1 d with hd2 | hd1
    · have hn1 : filtered.find? (fun x => x.owner_pid == a1) = none :=
        hnear 1 a1 (Nat.le_refl 1) hd2 (by rw [ancestorAt_one]; exact ha1)
      rw [hn1]
      refine ih a1 (d - 1) q w (by omega) (by omega) ?_ hfind ?_
      · have hsh := ancestorAt_succ_shift parent p (d - 1)
        rw [show d - 1 + 1 = d by omega] at hsh
        rw [hsh, ha1] at hanc
        exact hanc
      · intro k q2 hk1 hkd hk
        refine hnear (k + 1) q2 (by omega) (by omega) ?_
        rw [ancestorAt_succ_shift, ha1]
        exact hk
    · have hd : d = 1 := by omega
      subst hd
      rw [ancestorAt_one, ha1] at hanc
      injection hanc with hq
      subst hq
      rw [hfind]

/-- Claim C5: on a cache miss with `session_info.pid` present, the ancestry
walk checks the parent first and then farther ancestors, and `find_window`
returns the (first) filtered window owned by the *nearest* matching ancestor
(depth `d`, `1 ≤ d ≤ 10`); no window matched by a farther ancestor or by the
title, tab or fallback strategies is ever preferred over it. -/
theorem C5_nearest_ancestor_precedence (parent : Nat → Option Nat)
    (cache : Cache) (tapp sid : String) (si : SessionInfo)
    (tref tid : Option String) (ws : List WindowInfo) (p d q : Nat)
    (w : WindowInfo)
    (hmiss : cachedHit cache sid ws = none)
    (hpid : si.pid = some p)
    (hd1 : 1 ≤ d) (hd10 : d ≤ 10)
    (hanc : ancestorAt parent p d = some q)
    (hfind : (ws.filter fun x => x.terminal_app == tapp).find?
      (fun x => x.owner_pid == q) = some w)
    (hnear : ∀ k q2, 1 ≤ k → k < d → ancestorAt parent p k = some q2 →
      (ws.filter fun x => x.terminal_app == tapp).find?
        (fun x => x.owner_pid == q2) = none) :
    (WindowMatcher.find_window parent cache tapp sid (some si) tref tid ws).1 =
      some w := by
  have hstrat : ancestryStrategy parent (some si)
      (ws.filter fun x => x.terminal_app == tapp) =
      ancestryFind parent (ws.filter fun x => x.terminal_app == tapp) p 11 := by
    show (match si.pid with
      | some p => ancestryFind parent
          (ws.filter fun x => x.terminal_app == tapp) p 11
      | none => none) = _
    rw [hpid]
  have hcore : findWindowCore parent tapp (some si) tref tid
      (ws.filter fun x => x.terminal_app == tapp) = some w := by
    unfold findWindowCore
    rw [hstrat, ancestryFind_of_nearest parent _ 11 p d q w hd1 (by omega)
      hanc hfind hnear]
  rw [find_window_miss_some parent cache tapp sid (some si) tref tid ws w
    hmiss hcore]

/-- Witness for C5: pid 100 with parent chain 100 → 50 → 25; no filtered
window is owned by the depth-1 ancestor 50, the depth-2 ancestor 25 owns the
only window, which is returned. -/
theorem C5_witness :
    (WindowMatcher.find_window
      (fun n => if n = 100 then some 50 else if n = 50 then some 25 else none)
      [] "Terminal" "s" (some ⟨"s", some 100, "", none, none⟩) none none
      [⟨9, 25, "Terminal", "", none, none, none⟩]).1 =
      some ⟨9, 25, "Terminal", "", none, none, none⟩ := by
  refine C5_nearest_ancestor_precedence
    (fun n => if n = 100 then some 50 else if n = 50 then some 25 else none)
    [] "Terminal" "s" ⟨"s", some 100, "", none, none⟩ none none
    [⟨9, 25, "Terminal", "", none, none, none⟩] 100 2 25
    ⟨9, 25, "Terminal", "", none, none, none⟩
    (by decide) rfl (by decide) (by decide) (by decide) (by decide) ?_
  intro k q2 hk1 hk2 hk
  have hk' : k = 1 := by omega
  subst hk'
  have h50 : q2 = 50 := by
    rw [ancestorAt_one] at hk
    simp only [if_pos rfl] at hk
    injection hk with h
    exact h.symm
  subst h50
  decide

/-- Claim C8: the tracker's register path calls the matcher with
`session_info = None` (hardcoded at `window_tracker.rs` line 166), under
which the ancestry and working-directory strategies are identically `none`;
so on a cache miss only the tab-reference strategy, the tab-id strategy and
the largest-window-id fallback can produce the match. -/
theorem C8_register_path_strategies (parent : Nat → Option Nat)
    (cache : Cache) (tapp sid : String) (tref tid : Option String)
    (ws : List WindowInfo)
    (hmiss : cachedHit cache sid ws = none) :
    ancestryStrategy parent none (ws.filter fun w => w.terminal_app == tapp) =
      none ∧
    titleStrategy none (ws.filter fun w => w.terminal_app == tapp) = none ∧
    (WindowTracker.find_window parent cache tapp sid tref tid ws).1 =
      Option.map (toTracked sid)
        (match tabRefStrategy tapp tref
            (ws.filter fun w => w.terminal_app == tapp) with
         | some w => some w
         | none =>
           match tabIdStrategy tapp tid
              (ws.filter fun w => w.terminal_app == tapp) with
           | some w => some w
           | none => maxByWindowId (ws.filter fun w => w.terminal_app == tapp)) := by
  refine ⟨rfl, rfl, ?_⟩
  have hrw : (match tabRefStrategy tapp tref
        (ws.filter fun w => w.terminal_app == tapp) with
      | some w => some w
      | none =>
        match tabIdStrategy tapp tid
            (ws.filter fun w => w.terminal_app == tapp) with
        | some w => some w
        | none => maxByWindowId (ws.filter fun w => w.terminal_app == tapp)) =
      findWindowCore parent tapp none tref tid
        (ws.filter fun w => w.terminal_app == tapp) := rfl
  rw [hrw]
  show (WindowMatcher.find_window parent cache tapp sid none tref tid ws).1.map
    (toTracked sid) = _
  cases hcore : findWindowCore parent tapp none tref tid
      (ws.filter fun w => w.terminal_app == tapp) with
  | some w =>
    rw [find_window_miss_some parent cache tapp sid none tref tid ws w hmiss
      hcore]
  | none =>
    rw [find_window_miss_none parent cache tapp sid none tref tid ws hmiss
      hcore]

/-- Witness for C8: a register-path lookup over one Terminal window with no
tab identity falls through to the max-id fallback. -/
theorem C8_witness :
    (WindowTracker.find_window (fun _ => none) [] "Terminal" "s" none none
      [⟨7, 1, "Terminal", "", none, none, none⟩]).1 =
      some (toTracked "s" ⟨7, 1, "Terminal", "", none, none, none⟩) := by
  have h := (C8_register_path_strategies (fun _ => none) [] "Terminal" "s"
    none none [⟨7, 1, "Terminal", "", none, none, none⟩] (by decide)).2.2
  rw [h]
  decide

theorem listInfixOf_of_prefix (needle hay : List Char) (h : needle <+: hay) :
    listInfixOf needle hay = true := by
  cases hay with
  | nil =>
    have : needle = [] := List.prefix_nil.mp h
    subst this
    rfl
  | cons c rest =>
    unfold listInfixOf
    rw [List.isPrefixOf_iff_prefix.mpr h]
    rfl

/-- Claim C6: `focus_window` produces an error containing
"No window registered" exactly when the session id is absent from the
authoritative map (given that the platform activation errors never contain
that phrase, which the concrete platform error strings in the source do
not); when present, the activation result — error or not — is returned to
the caller; and the map is left unchanged on every path. -/
theorem C6_focus_window_error_paths
    (activate : TrackedWindow → Except String Unit) (map : SessionMap)
    (sid : String)
    (hact : ∀ w e, activate w = Except.error e →
      strContains e "No window registered" = false) :
    ((∃ e, (focus_window activate map sid).1 = Except.error e ∧
        strContains e "No window registered" = true) ↔
      mapLookup map sid = none) ∧
    (mapLookup map sid = none →
      (focus_window activate map sid).1 =
        Except.error ("No window registered for session: " ++ sid)) ∧
    (∀ w, mapLookup map sid = some w →
      (focus_window activate map sid).1 = activate w) ∧
    (focus_window activate map sid).2 = map := by
  have hsub : strContains ("No window registered for session: " ++ sid)
      "No window registered" = true := by
    unfold strContains
    apply listInfixOf_of_prefix
    rw [String.data_append]
    exact List.IsPrefix.trans (by decide)
      (List.prefix_append "No window registered for session: ".data sid.data)
  unfold focus_window
  cases hl : mapLookup map sid with
  | none =>
    refine ⟨⟨fun _ => rfl, fun _ => ?_⟩, fun _ => rfl, ?_, rfl⟩
    · exact ⟨"No window registered for session: " ++ sid, rfl, hsub⟩
    · intro w hw
      cases hw
  | some w0 =>
    refine ⟨⟨?_, fun hn => ?_⟩, fun hn => ?_, ?_, rfl⟩
    · rintro ⟨e, he, hce⟩
      rw [hact w0 e he] at hce
      cases hce
    · cases hn
    · cases hn
    · intro w hw
      injection hw with he
      subst he
      rfl

/-- Witness for C6, with an activation stub whose error is the concrete
AppleScript-failure string from the source: absent session errors with the
registration message, present session returns the activation error, and the
map is unchanged in both cases. -/
theorem C6_witness :
    (focus_window (fun _ => Except.error "AppleScript failed: boom") [] "s").1 =
      Except.error ("No window registered for session: " ++ "s") ∧
    (focus_window (fun _ => Except.error "AppleScript failed: boom")
      [("s", ⟨7, 1, "Terminal", "s", none, none, none⟩)] "s").1 =
      Except.error "AppleScript failed: boom" ∧
    (focus_window (fun _ => Except.error "AppleScript failed: boom")
      [("s", ⟨7, 1, "Terminal", "s", none, none, none⟩)] "s").2 =
      [("s", ⟨7, 1, "Terminal", "s", none, none, none⟩)] := by
  have hact : ∀ (w : TrackedWindow) e,
      (fun (_ : TrackedWindow) => Except.error (ε := String) (α := Unit)
        "AppleScript failed: boom") w = Except.error e →
      strContains e "No window registered" = false := by
    intro w e he
    injection he with h
    subst h
    decide
  refine ⟨?_, ?_, ?_⟩
  · exact (C6_focus_window_error_paths
      (fun _ => Except.error "AppleScript failed: boom") [] "s" hact).2.1 rfl
  · exact (C6_focus_window_error_paths
      (fun _ => Except.error "AppleScript failed: boom")
      [("s", ⟨7, 1, "Terminal", "s", none, none, none⟩)] "s" hact).2.2.1
      ⟨7, 1, "Terminal", "s", none, none, none⟩ rfl
  · exact (C6_focus_window_error_paths
      (fun _ => Except.error "AppleScript failed: boom")
      [("s", ⟨7, 1, "Terminal", "s", none, none, none⟩)] "s" hact).2.2.2

theorem listInfixOf_nil (l : List Char) : listInfixOf [] l = true := by
  cases l <;> rfl

theorem listFindCongr {α : Type} (p q : α → Bool) (h : ∀ a, p a = q a) :
    ∀ l : List α, l.find? p = l.find? q := by
  intro l
  induction l with
  | nil => rfl
  | cons x xs ih =>
    rw [List.find?_cons, List.find?_cons, h x]
    cases hq : q x
    · exact ih
    · rfl

theorem ffs_hit (parent : Nat → Option Nat) (cache : Cache) (sid : String)
    (si : SessionInfo) (ws : List WindowInfo) (w : WindowInfo)
    (h : cachedHit cache sid ws = some w) :
    WindowMatcher.find_window_for_session parent cache sid si ws =
      (some w, cache) := by
  unfold WindowMatcher.find_window_for_session
  rw [h]

theorem ffs_miss_some (parent : Nat → Option Nat) (cache : Cache)
    (sid : String) (si : SessionInfo) (ws : List WindowInfo) (w : WindowInfo)
    (hmiss : cachedHit cache sid ws = none)
    (hcore : ffsCore parent si ws = some w) :
    WindowMatcher.find_window_for_session parent cache sid si ws =
      (some w, cacheInsert cache sid w.window_id) := by
  unfold WindowMatcher.find_window_for_session
  rw [hmiss]
  simp only
  rw [hcore]

theorem ffs_miss_none (parent : Nat → Option Nat) (cache : Cache)
    (sid : String) (si : SessionInfo) (ws : List WindowInfo)
    (hmiss : cachedHit cache sid ws = none)
    (hcore : ffsCore parent si ws = none) :
    WindowMatcher.find_window_for_session parent cache sid si ws =
      (none, cache) := by
  unfold WindowMatcher.find_window_for_session
  rw [hmiss]
  simp only
  rw [hcore]

theorem dirTitleFind_empty (ws : List WindowInfo) :
    dirTitleFind "" ws = ws.find? fun w => w.title.isSome := by
  show ws.find? (fun w =>
    match w.title with
    | some title => strContains title "" || strContains title ""
    | none => false) = _
  apply listFindCongr
  intro w
  cases w.title with
  | none => rfl
  | some t =>
    have h1 : strContains t "" = true := by
      unfold strContains
      rw [show ("" : String).data = [] from rfl]
      exact listInfixOf_nil t.data
    show (strContains t "" || strContains t "") = true
    rw [h1]
    rfl

/-- Claim C7 is false as stated: the matcher's cache check precedes the
working-directory strategy, so a cached id that is still present in the
snapshot is returned even when it is not the first titled window — here the
cache maps "s" to id 5, window 5 has no title, window 6 is titled, and the
probe returns window 5 rather than the first titled window 6. -/
theorem C7_counterexample :
    (WindowTracker.find_window_for_session (fun _ => none) [("s", 5)] "s"
      [⟨5, 1, "Terminal", "", none, none, none⟩,
       ⟨6, 1, "Terminal", "", none, none, some "x"⟩]).1 =
      some (toTracked "s" ⟨5, 1, "Terminal", "", none, none, none⟩) ∧
    (⟨5, 1, "Terminal", "", none, none, none⟩ : WindowInfo).title = none ∧
    (⟨6, 1, "Terminal", "", none, none, some "x"⟩ : WindowInfo).title =
      some "x" := by
  decide

/-- Claim C7, amended: the backfill probe builds a `SessionInfo` with
`pid = None` and `working_dir = ""`; on a cache miss it returns the first
enumerated window that has any title (every title contains the empty
string); with a cached id present in the snapshot it returns that cached
window instead.  Either way, for every snapshot containing at least one
titled window the probe returns some window, regardless of the session's
actual identity. -/
theorem C7_amended_backfill_probe (parent : Nat → Option Nat) (cache : Cache)
    (sid : String) (ws : List WindowInfo) :
    (cachedHit cache sid ws = none →
      (WindowTracker.find_window_for_session parent cache sid ws).1 =
        Option.map (toTracked sid) (ws.find? fun w => w.title.isSome)) ∧
    ((∃ w ∈ ws, w.title.isSome = true) →
      ∃ t, (WindowTracker.find_window_for_session parent cache sid ws).1 =
        some t) := by
  have hcore : ffsCore parent ⟨sid, none, "", none, none⟩ ws =
      ws.find? (fun w => w.title.isSome) := by
    unfold ffsCore
    show (match dirTitleFind "" ws with
      | some w => some w
      | none => activityFind none ws) = _
    rw [dirTitleFind_empty]
    cases ws.find? (fun w => w.title.isSome) <;> rfl
  have key : cachedHit cache sid ws = none →
      (WindowTracker.find_window_for_session parent cache sid ws).1 =
        Option.map (toTracked sid) (ws.find? fun w => w.title.isSome) := by
    intro hmiss
    show (WindowMatcher.find_window_for_session parent cache sid
      ⟨sid, none, "", none, none⟩ ws).1.map (toTracked sid) = _
    rw [← hcore]
    cases hf : ffsCore parent ⟨sid, none, "", none, none⟩ ws with
    | some w =>
      rw [ffs_miss_some parent cache sid ⟨sid, none, "", none, none⟩ ws w
        hmiss hf]
    | none =>
      rw [ffs_miss_none parent cache sid ⟨sid, none, "", none, none⟩ ws
        hmiss hf]
  refine ⟨key, ?_⟩
  rintro ⟨w, hw, ht⟩
  cases hhit : cachedHit cache sid ws with
  | some w0 =>
    refine ⟨toTracked sid w0, ?_⟩
    show (WindowMatcher.find_window_for_session parent cache sid
      ⟨sid, none, "", none, none⟩ ws).1.map (toTracked sid) = _
    rw [ffs_hit parent cache sid ⟨sid, none, "", none, none⟩ ws w0 hhit]
    rfl
  | none =>
    have hfs : (ws.find? fun w => w.title.isSome).isSome :=
      List.find?_isSome.mpr ⟨w, hw, ht⟩
    obtain ⟨w1, hw1⟩ := Option.isSome_iff_exists.mp hfs
    refine ⟨toTracked sid w1, ?_⟩
    rw [key hhit, hw1]
    rfl

/-- Witness for the amended C7: with an empty cache and an untitled window
followed by a titled one, the probe returns the titled window; and it
returns some window whenever a titled window exists. -/
theorem C7_witness :
    (WindowTracker.find_window_for_session (fun _ => none) [] "s"
      [⟨5, 1, "Terminal", "", none, none, none⟩,
       ⟨6, 1, "Terminal", "", none, none, some "x"⟩]).1 =
      Option.map (toTracked "s")
        ([⟨5, 1, "Terminal", "", none, none, none⟩,
          ⟨6, 1, "Terminal", "", none, none, some "x"⟩].find?
          fun w => w.title.isSome) ∧
    (∃ t, (WindowTracker.find_window_for_session (fun _ => none) [] "s"
      [⟨5, 1, "Terminal", "", none, none, none⟩,
       ⟨6, 1, "Terminal", "", none, none, some "x"⟩]).1 = some t) := by
  constructor
  · exact (C7_amended_backfill_probe (fun _ => none) [] "s"
      [⟨5, 1, "Terminal", "", none, none, none⟩,
       ⟨6, 1, "Terminal", "", none, none, some "x"⟩]).1 (by decide)
  · exact (C7_amended_backfill_probe (fun _ => none) [] "s"
      [⟨5, 1, "Terminal", "", none, none, none⟩,
       ⟨6, 1, "Terminal", "", none, none, some "x"⟩]).2
      ⟨⟨6, 1, "Terminal", "", none, none, some "x"⟩, by decide, by decide⟩

theorem trackerFW_none_cache (parent : Nat → Option Nat) (cache : Cache)
    (tapp sid : String) (tref tid : Option String) (ws : List WindowInfo)
    (h : (WindowTracker.find_window parent cache tapp sid tref tid ws).1 = none) :
    WindowTracker.find_window parent cache tapp sid tref tid ws =
      (none, cache) := by
  cases hm : (WindowMatcher.find_window parent cache tapp sid none tref tid ws).1 with
  | some w =>
    exfalso
    have h2 : (WindowMatcher.find_window parent cache tapp sid none tref tid
      ws).1.map (toTracked sid) = none := h
    rw [hm] at h2
    cases h2
  | none =>
    have hfull := find_window_fst_none parent cache tapp sid none tref tid ws hm
    show ((WindowMatcher.find_window parent cache tapp sid none tref tid
        ws).1.map (toTracked sid),
      (WindowMatcher.find_window parent cache tapp sid none tref tid ws).2) =
      (none, cache)
    rw [hfull]
    rfl

theorem registerAttempts_all_fail (parent : Nat → Option Nat)
    (snapshots : Nat → List WindowInfo) (sid tapp : String)
    (tref tid : Option String) :
    ∀ (ds : List Nat) (k t : Nat) (map : SessionMap) (cache : Cache),
      (∀ i, i < ds.length →
        (WindowTracker.find_window parent cache tapp sid tref tid
          (snapshots (k + i))).1 = none) →
      registerAttempts parent snapshots sid tapp tref tid ds k t map cache =
        (map, cache, cumOffsets t ds) := by
  intro ds
  induction ds with
  | nil => intro k t map cache _; rfl
  | cons d ds ih =>
    intro k t map cache h
    have h0 : (WindowTracker.find_window parent cache tapp sid tref tid
        (snapshots k)).1 = none := by
      have h0' := h 0 (by simp)
      rwa [Nat.add_zero] at h0'
    unfold registerAttempts
    rw [trackerFW_none_cache parent cache tapp sid tref tid _ h0]
    show ((registerAttempts parent snapshots sid tapp tref tid ds (k + 1)
        (t + d) map cache).1,
      (registerAttempts parent snapshots sid tapp tref tid ds (k + 1)
        (t + d) map cache).2.1,
      (t + d) :: (registerAttempts parent snapshots sid tapp tref tid ds
        (k + 1) (t + d) map cache).2.2) = (map, cache, cumOffsets t (d :: ds))
    have hrest : ∀ i, i < ds.length →
        (WindowTracker.find_window parent cache tapp sid tref tid
          (snapshots (k + 1 + i))).1 = none := by
      intro i hi
      have hh := h (i + 1) (by simpa using Nat.succ_lt_succ hi)
      rwa [show k + (i + 1) = k + 1 + i by omega] at hh
    rw [ih (k + 1) (t + d) map cache hrest]
    rfl

theorem registerAttempts_first_success (parent : Nat → Option Nat)
    (snapshots : Nat → List WindowInfo) (sid tapp : String)
    (tref tid : Option String) :
    ∀ (ds : List Nat) (j k t : Nat) (map : SessionMap) (cache cache2 : Cache)
      (w : TrackedWindow),
      j < ds.length →
      (∀ i, i < j →
        (WindowTracker.find_window parent cache tapp sid tref tid
          (snapshots (k + i))).1 = none) →
      WindowTracker.find_window parent cache tapp sid tref tid
        (snapshots (k + j)) = (some w, cache2) →
      registerAttempts parent snapshots sid tapp tref tid ds k t map cache =
        (mapInsert map sid w, cache2, cumOffsets t (ds.take (j + 1))) := by
  intro ds
  induction ds with
  | nil => intro j k t map cache cache2 w hj _ _; simp at hj
  | cons d ds ih =>
    intro j k t map cache cache2 w hj hfail hsucc
    cases j with
    | zero =>
      rw [Nat.add_zero] at hsucc
      unfold registerAttempts
      rw [hsucc]
      rfl
    | succ j2 =>
      have h0 : (WindowTracker.find_window parent cache tapp sid tref tid
          (snapshots k)).1 = none := by
        have h0' := hfail 0 (Nat.succ_pos j2)
        rwa [Nat.add_zero] at h0'
      unfold registerAttempts
      rw [trackerFW_none_cache parent cache tapp sid tref tid _ h0]
      show ((registerAttempts parent snapshots sid tapp tref tid ds (k + 1)
          (t + d) map cache).1,
        (registerAttempts parent snapshots sid tapp tref tid ds (k + 1)
          (t + d) map cache).2.1,
        (t + d) :: (registerAttempts parent snapshots sid tapp tref tid ds
          (k + 1) (t + d) map cache).2.2) =
        (mapInsert map sid w, cache2, cumOffsets t ((d :: ds).take (j2 + 2)))
      have hfail2 : ∀ i, i < j2 →
          (WindowTracker.find_window parent cache tapp sid tref tid
            (snapshots (k + 1 + i))).1 = none := by
        intro i hi
        have hh := hfail (i + 1) (Nat.succ_lt_succ hi)
        rwa [show k + (i + 1) = k + 1 + i by omega] at hh
      have hsucc2 : WindowTracker.find_window parent cache tapp sid tref tid
          (snapshots (k + 1 + j2)) = (some w, cache2) := by
        rwa [show k + 1 + j2 = k + (j2 + 1) by omega]
      rw [ih j2 (k + 1) (t + d) map cache cache2 w (by simpa using hj) hfail2
        hsucc2]
      rfl

/-- Claim C3: `register_window` has exactly two attempt schedules.  With an
explicit identity (tab reference for Terminal, tab id for iTerm2) it makes
exactly one attempt at cumulative offset 500 ms, inserting on success and
doing nothing on failure.  Otherwise it makes up to four attempts at
cumulative offsets 0.5 s, 1.5 s, 3.5 s, 6.5 s, inserting and stopping at the
first success; if every attempt fails the map is left unchanged (the session
stays unmapped) and the call returns normally. -/
theorem C3_register_window_schedules (parent : Nat → Option Nat)
    (snapshots : Nat → List WindowInfo) (map : SessionMap) (cache : Cache)
    (sid tapp : String) (tref tid : Option String) :
    (explicitIdentity tapp tref tid = true →
      (register_window parent snapshots map cache sid tapp tref tid).2.2 =
        [500] ∧
      ((WindowTracker.find_window parent cache tapp sid tref tid
          (snapshots 0)).1 = none →
        (register_window parent snapshots map cache sid tapp tref tid).1 =
          map) ∧
      (∀ w, (WindowTracker.find_window parent cache tapp sid tref tid
          (snapshots 0)).1 = some w →
        (register_window parent snapshots map cache sid tapp tref tid).1 =
          mapInsert map sid w)) ∧
    (explicitIdentity tapp tref tid = false →
      ((∀ k, k < 4 →
          (WindowTracker.find_window parent cache tapp sid tref tid
            (snapshots k)).1 = none) →
        (register_window parent snapshots map cache sid tapp tref tid).1 =
          map ∧
        (register_window parent snapshots map cache sid tapp tref tid).2.2 =
          [500, 1500, 3500, 6500]) ∧
      (∀ j w, j < 4 →
        (∀ k, k < j →
          (WindowTracker.find_window parent cache tapp sid tref tid
            (snapshots k)).1 = none) →
        (WindowTracker.find_window parent cache tapp sid tref tid
          (snapshots j)).1 = some w →
        (register_window parent snapshots map cache sid tapp tref tid).1 =
          mapInsert map sid w ∧
        (register_window parent snapshots map cache sid tapp tref tid).2.2 =
          List.take (j + 1) [500, 1500, 3500, 6500])) := by
  constructor
  · intro hex
    have hreg : register_window parent snapshots map cache sid tapp tref tid =
        registerAttempts parent snapshots sid tapp tref tid [500] 0 0 map
          cache := by
      unfold register_window
      rw [hex, if_pos rfl]
    refine ⟨?_, ?_, ?_⟩
    · cases h0 : (WindowTracker.find_window parent cache tapp sid tref tid
          (snapshots 0)).1 with
      | none =>
        rw [hreg, registerAttempts_all_fail parent snapshots sid tapp tref tid
          [500] 0 0 map cache (fun i hi => by
            have hi0 : i = 0 := by simpa using hi
            subst hi0
            exact h0)]
        rfl
      | some w =>
        have hpair : WindowTracker.find_window parent cache tapp sid tref tid
            (snapshots 0) =
            (some w, (WindowTracker.find_window parent cache tapp sid tref tid
              (snapshots 0)).2) := by
          rw [← h0]
        rw [hreg, registerAttempts_first_success parent snapshots sid tapp
          tref tid [500] 0 0 0 map cache _ w (by simp)
          (fun i hi => absurd hi (Nat.not_lt_zero i)) hpair]
        rfl
    · intro h0
      rw [hreg, registerAttempts_all_fail parent snapshots sid tapp tref tid
        [500] 0 0 map cache (fun i hi => by
          have hi0 : i = 0 := by simpa using hi
          subst hi0
          exact h0)]
    · intro w h0
      have hpair : WindowTracker.find_window parent cache tapp sid tref tid
          (snapshots 0) =
          (some w, (WindowTracker.find_window parent cache tapp sid tref tid
            (snapshots 0)).2) := by
        rw [← h0]
      rw [hreg, registerAttempts_first_success parent snapshots sid tapp
        tref tid [500] 0 0 0 map cache _ w (by simp)
        (fun i hi => absurd hi (Nat.not_lt_zero i)) hpair]
  · intro hex
    have hreg : register_window parent snapshots map cache sid tapp tref tid =
        registerAttempts parent snapshots sid tapp tref tid
          [500, 1000, 2000, 3000] 0 0 map cache := by
      unfold register_window
      rw [hex, if_neg Bool.false_ne_true]
    constructor
    · intro hall
      have hAll : ∀ i, i < ([500, 1000, 2000, 3000] : List Nat).length →
          (WindowTracker.find_window parent cache tapp sid tref tid
            (snapshots (0 + i))).1 = none := by
        intro i hi
        have hi4 : i < 4 := by simpa using hi
        have := hall i hi4
        rwa [Nat.zero_add]
      rw [hreg, registerAttempts_all_fail parent snapshots sid tapp tref tid
        [500, 1000, 2000, 3000] 0 0 map cache hAll]
      exact ⟨rfl, rfl⟩
    · intro j w hj hfail h0
      have hfail2 : ∀ i, i < j →
          (WindowTracker.find_window parent cache tapp sid tref tid
            (snapshots (0 + i))).1 = none := by
        intro i hi
        have := hfail i hi
        rwa [Nat.zero_add]
      have hsucc2 : WindowTracker.find_window parent cache tapp sid tref tid
          (snapshots (0 + j)) =
          (some w, (WindowTracker.find_window parent cache tapp sid tref tid
            (snapshots j)).2) := by
        rw [Nat.zero_add, ← h0]
      rw [hreg, registerAttempts_first_success parent snapshots sid tapp tref
        tid [500, 1000, 2000, 3000] j 0 0 map cache _ w (by simpa using hj)
        hfail2 hsucc2]
      refine ⟨rfl, ?_⟩
      have hj4 : j = 0 ∨ j = 1 ∨ j = 2 ∨ j = 3 := by omega
      rcases hj4 with rfl | rfl | rfl | rfl <;> rfl

/-- Witness for C3: with every snapshot empty all attempts fail — the
explicit-identity call makes a single 500 ms attempt, the generic call makes
the four-step schedule and leaves the map unchanged. -/
theorem C3_witness :
    (register_window (fun _ => none) (fun _ => []) [] [] "s" "Terminal"
      (some "tab") none).2.2 = [500] ∧
    (register_window (fun _ => none) (fun _ => []) [] [] "s" "xterm" none
      none).1 = ([] : SessionMap) ∧
    (register_window (fun _ => none) (fun _ => []) [] [] "s" "xterm" none
      none).2.2 = [500, 1500, 3500, 6500] := by
  refine ⟨?_, ?_, ?_⟩
  · exact ((C3_register_window_schedules (fun _ => none) (fun _ => []) [] []
      "s" "Terminal" (some "tab") none).1 (by decide)).1
  · exact (((C3_register_window_schedules (fun _ => none) (fun _ => []) [] []
      "s" "xterm" none none).2 (by decide)).1 (fun k _ => by decide)).1
  · exact (((C3_register_window_schedules (fun _ => none) (fun _ => []) [] []
      "s" "xterm" none none).2 (by decide)).1 (fun k _ => by decide)).2

theorem mapErase_lookup_ne (k sid : String) (hne : k ≠ sid) :
    ∀ m : SessionMap, mapLookup (mapErase m k) sid = mapLookup m sid := by
  intro m
  induction m with
  | nil => rfl
  | cons e rest ih =>
    obtain ⟨k2, v⟩ := e
    unfold mapErase
    by_cases hk2 : k2 = k
    · subst hk2
      rw [if_pos rfl, ih]
      show mapLookup rest sid = if k2 = sid then some v else mapLookup rest sid
      rw [if_neg hne]
    · rw [if_neg hk2]
      show (if k2 = sid then some v else mapLookup (mapErase rest k) sid) =
        if k2 = sid then some v else mapLookup rest sid
      by_cases hks : k2 = sid
      · rw [if_pos hks, if_pos hks]
      · rw [if_neg hks, if_neg hks, ih]

theorem mapLookup_insert_ne (m : SessionMap) (k : String) (v : TrackedWindow)
    (sid : String) (hne : k ≠ sid) :
    mapLookup (mapInsert m k v) sid = mapLookup m sid := by
  show (if k = sid then some v else mapLookup (mapErase m k) sid) =
    mapLookup m sid
  rw [if_neg hne]
  exact mapErase_lookup_ne k sid hne m

theorem removePhase_lookup (live : List String) :
    ∀ (m : SessionMap) (sid : String),
      mapLookup (removePhase m live) sid =
        if live.contains sid = true then mapLookup m sid else none := by
  intro m
  induction m with
  | nil =>
    intro sid
    by_cases h : live.contains sid = true
    · rw [if_pos h]
      rfl
    · rw [if_neg h]
      rfl
  | cons e rest ih =>
    obtain ⟨k, v⟩ := e
    intro sid
    show mapLookup (if live.contains k then (k, v) :: removePhase rest live
      else removePhase rest live) sid = _
    by_cases hk : live.contains k = true
    · rw [if_pos hk]
      show (if k = sid then some v else mapLookup (removePhase rest live) sid) = _
      by_cases hks : k = sid
      · subst hks
        rw [if_pos rfl, if_pos hk]
        show some v = if k = k then some v else mapLookup rest k
        rw [if_pos rfl]
      · rw [if_neg hks, ih sid]
        by_cases hs : live.contains sid = true
        · rw [if_pos hs, if_pos hs]
          show mapLookup rest sid =
            if k = sid then some v else mapLookup rest sid
          rw [if_neg hks]
        · rw [if_neg hs, if_neg hs]
    · rw [if_neg hk, ih sid]
      by_cases hs : live.contains sid = true
      · rw [if_pos hs, if_pos hs]
        have hks : k ≠ sid := fun he => hk (he ▸ hs)
        show mapLookup rest sid = if k = sid then some v else mapLookup rest sid
        rw [if_neg hks]
      · rw [if_neg hs, if_neg hs]

theorem backfill_preserved (parent : Nat → Option Nat)
    (snapshots : Nat → List WindowInfo) :
    ∀ (l : List SessionResponse) (k : Nat) (map : SessionMap) (cache : Cache)
      (sid : String) (w : TrackedWindow),
      mapLookup map sid = some w →
      mapLookup (backfill parent snapshots l k map cache).1 sid = some w := by
  intro l
  induction l with
  | nil => intro k map cache sid w h; exact h
  | cons s rest ih =>
    intro k map cache sid w hmem
    unfold backfill
    cases hl : mapLookup map s.id with
    | some v => exact ih k map cache sid w hmem
    | none =>
      have hne : s.id ≠ sid := by
        intro he
        rw [he, hmem] at hl
        cases hl
      cases hfw : WindowTracker.find_window_for_session parent cache s.id
          (snapshots k) with
      | mk fst snd =>
        cases fst with
        | some w2 =>
          show mapLookup (backfill parent snapshots rest (k + 1)
            (mapInsert map s.id w2) snd).1 sid = some w
          refine ih (k + 1) _ snd sid w ?_
          rw [mapLookup_insert_ne map s.id w2 sid hne]
          exact hmem
        | none =>
          show mapLookup (backfill parent snapshots rest (k + 1) map snd).1
            sid = some w
          exact ih (k + 1) map snd sid w hmem

theorem backfill_fresh_none (parent : Nat → Option Nat)
    (snapshots : Nat → List WindowInfo) :
    ∀ (l : List SessionResponse) (k : Nat) (map : SessionMap) (cache : Cache)
      (sid : String),
      sid ∉ l.map (fun s => s.id) →
      mapLookup map sid = none →
      mapLookup (backfill parent snapshots l k map cache).1 sid = none := by
  intro l
  induction l with
  | nil => intro k map cache sid _ h; exact h
  | cons s rest ih =>
    intro k map cache sid hnm hnone
    simp only [List.map_cons, List.mem_cons, not_or] at hnm
    obtain ⟨hne1, hne2⟩ := hnm
    have hne : s.id ≠ sid := fun he => hne1 he.symm
    unfold backfill
    cases hl : mapLookup map s.id with
    | some v => exact ih k map cache sid hne2 hnone
    | none =>
      cases hfw : WindowTracker.find_window_for_session parent cache s.id
          (snapshots k) with
      | mk fst snd =>
        cases fst with
        | some w2 =>
          show mapLookup (backfill parent snapshots rest (k + 1)
            (mapInsert map s.id w2) snd).1 sid = none
          refine ih (k + 1) _ snd sid hne2 ?_
          rw [mapLookup_insert_ne map s.id w2 sid hne]
          exact hnone
        | none =>
          show mapLookup (backfill parent snapshots rest (k + 1) map snd).1
            sid = none
          exact ih (k + 1) map snd sid hne2 hnone

theorem backfill_probes (parent : Nat → Option Nat)
    (snapshots : Nat → List WindowInfo) :
    ∀ (l : List SessionResponse) (k : Nat) (map : SessionMap) (cache : Cache),
      (l.map (fun s => s.id)).Nodup →
      (backfill parent snapshots l k map cache).2.2 =
        (l.filter (fun s => (mapLookup map s.id).isNone)).map
          (fun s => s.id) := by
  intro l
  induction l with
  | nil => intro k map cache _; rfl
  | cons s rest ih =>
    intro k map cache hnd
    have hnd2 : (rest.map (fun s => s.id)).Nodup :=
      (List.nodup_cons.mp (by simpa using hnd)).2
    have hhead : s.id ∉ rest.map (fun s => s.id) :=
      (List.nodup_cons.mp (by simpa using hnd)).1
    unfold backfill
    cases hl : mapLookup map s.id with
    | some v =>
      rw [ih k map cache hnd2, List.filter_cons, hl]
      simp
    | none =>
      cases hfw : WindowTracker.find_window_for_session parent cache s.id
          (snapshots k) with
      | mk fst snd =>
        cases fst with
        | some w2 =>
          show s.id :: (backfill parent snapshots rest (k + 1)
            (mapInsert map s.id w2) snd).2.2 = _
          rw [ih (k + 1) (mapInsert map s.id w2) snd hnd2]
          have hfilt : rest.filter
              (fun s2 => (mapLookup (mapInsert map s.id w2) s2.id).isNone) =
              rest.filter (fun s2 => (mapLookup map s2.id).isNone) := by
            apply List.filter_congr
            intro s2 hs2
            have hne : s.id ≠ s2.id := by
              intro he
              exact hhead (he ▸ List.mem_map_of_mem (fun s => s.id) hs2)
            rw [mapLookup_insert_ne map s.id w2 s2.id hne]
          rw [hfilt, List.filter_cons, hl]
          simp
        | none =>
          show s.id :: (backfill parent snapshots rest (k + 1) map snd).2.2 = _
          rw [ih (k + 1) map snd hnd2, List.filter_cons, hl]
          simp

theorem backfill_all_fail (parent : Nat → Option Nat)
    (snapshots : Nat → List WindowInfo)
    (hprobe : ∀ (c : Cache) (s : String) (k : Nat),
      (WindowTracker.find_window_for_session parent c s (snapshots k)).1 =
        none) :
    ∀ (l : List SessionResponse) (k : Nat) (map : SessionMap) (cache : Cache),
      (backfill parent snapshots l k map cache).1 = map := by
  intro l
  induction l with
  | nil => intro k map cache; rfl
  | cons s rest ih =>
    intro k map cache
    unfold backfill
    cases hl : mapLookup map s.id with
    | some v => exact ih k map cache
    | none =>
      have h1 := hprobe cache s.id k
      cases hfw : WindowTracker.find_window_for_session parent cache s.id
          (snapshots k) with
      | mk fst snd =>
        rw [hfw] at h1
        cases fst with
        | some w2 => simp at h1
        | none =>
          show (backfill parent snapshots rest (k + 1) map snd).1 = map
          exact ih (k + 1) map snd

/-- Claim C4: `update_from_sessions` removes exactly the tracked entries
whose session id is not live (entries of live sessions are preserved
unchanged), probes exactly once — in order — each live session lacking an
entry, and if every probe fails the map is exactly the removal-phase result
(inserts happen only on probe success). -/
theorem C4_update_from_sessions (parent : Nat → Option Nat)
    (snapshots : Nat → List WindowInfo) (map : SessionMap) (cache : Cache)
    (sessions : List SessionResponse)
    (hnd : (sessions.map (fun s => s.id)).Nodup) :
    (∀ sid, sid ∉ sessions.map (fun s => s.id) →
      mapLookup (update_from_sessions parent snapshots map cache sessions).1
        sid = none) ∧
    (∀ sid w, sid ∈ sessions.map (fun s => s.id) →
      mapLookup map sid = some w →
      mapLookup (update_from_sessions parent snapshots map cache sessions).1
        sid = some w) ∧
    ((update_from_sessions parent snapshots map cache sessions).2.2 =
      (sessions.filter (fun s =>
        (mapLookup (removePhase map (sessions.map (fun s => s.id)))
          s.id).isNone)).map (fun s => s.id)) ∧
    ((∀ (c : Cache) (s : String) (k : Nat),
        (WindowTracker.find_window_for_session parent c s
          (snapshots k)).1 = none) →
      (update_from_sessions parent snapshots map cache sessions).1 =
        removePhase map (sessions.map (fun s => s.id))) := by
  refine ⟨?_, ?_, ?_, ?_⟩
  · intro sid hnm
    have hc : (sessions.map (fun s => s.id)).contains sid = false := by
      simpa using hnm
    have h1 : mapLookup
        (removePhase map (sessions.map (fun s => s.id))) sid = none := by
      rw [removePhase_lookup, hc]
      rfl
    show mapLookup (backfill parent snapshots sessions 0
      (removePhase map (sessions.map (fun s => s.id))) cache).1 sid = none
    exact backfill_fresh_none parent snapshots sessions 0 _ cache sid hnm h1
  · intro sid w hmem hsome
    have hc : (sessions.map (fun s => s.id)).contains sid = true := by
      simpa using hmem
    have h1 : mapLookup
        (removePhase map (sessions.map (fun s => s.id))) sid = some w := by
      rw [removePhase_lookup, hc, if_pos rfl]
      exact hsome
    show mapLookup (backfill parent snapshots sessions 0
      (removePhase map (sessions.map (fun s => s.id))) cache).1 sid = some w
    exact backfill_preserved parent snapshots sessions 0 _ cache sid w h1
  · show (backfill parent snapshots sessions 0
      (removePhase map (sessions.map (fun s => s.id))) cache).2.2 = _
    exact backfill_probes parent snapshots sessions 0 _ cache hnd
  · intro hp
    show (backfill parent snapshots sessions 0
      (removePhase map (sessions.map (fun s => s.id))) cache).1 = _
    exact backfill_all_fail parent snapshots hp sessions 0 _ cache

/-- Witness for C4, on the spec's example: tracked map
`{"a" ↦ W1, "b" ↦ W2}` and live ids `["a"]` yield exactly `{"a" ↦ W1}`
(the probe environment is empty, so every probe fails). -/
theorem C4_witness :
    mapLookup (update_from_sessions (fun _ => none) (fun _ => [])
      [("a", ⟨1, 1, "Terminal", "a", none, none, none⟩),
       ("b", ⟨2, 1, "Terminal", "b", none, none, none⟩)] [] [⟨"a"⟩]).1 "a" =
      some ⟨1, 1, "Terminal", "a", none, none, none⟩ ∧
    mapLookup (update_from_sessions (fun _ => none) (fun _ => [])
      [("a", ⟨1, 1, "Terminal", "a", none, none, none⟩),
       ("b", ⟨2, 1, "Terminal", "b", none, none, none⟩)] [] [⟨"a"⟩]).1 "b" =
      none ∧
    (update_from_sessions (fun _ => none) (fun _ => [])
      [("a", ⟨1, 1, "Terminal", "a", none, none, none⟩),
       ("b", ⟨2, 1, "Terminal", "b", none, none, none⟩)] [] [⟨"a"⟩]).2.2 =
      [] ∧
    (update_from_sessions (fun _ => none) (fun _ => [])
      [("a", ⟨1, 1, "Terminal", "a", none, none, none⟩),
       ("b", ⟨2, 1, "Terminal", "b", none, none, none⟩)] [] [⟨"a"⟩]).1 =
      removePhase
        [("a", ⟨1, 1, "Terminal", "a", none, none, none⟩),
         ("b", ⟨2, 1, "Terminal", "b", none, none, none⟩)]
        (([⟨"a"⟩] : List SessionResponse).map (fun s => s.id)) := by
  have hp : ∀ (c : Cache) (s : String) (k : Nat),
      (WindowTracker.find_window_for_session (fun _ => none) c s
        ((fun _ => ([] : List WindowInfo)) k)).1 = none := by
    intro c s k
    have hmiss : cachedHit c s [] = none := by
      unfold cachedHit
      cases cacheLookup c s <;> rfl
    show (WindowMatcher.find_window_for_session (fun _ => none) c s
      ⟨s, none, "", none, none⟩ []).1.map (toTracked s) = none
    rw [ffs_miss_none (fun _ => none) c s ⟨s, none, "", none, none⟩ [] hmiss
      rfl]
    rfl
  have h := C4_update_from_sessions (fun _ => none) (fun _ => [])
    [("a", ⟨1, 1, "Terminal", "a", none, none, none⟩),
     ("b", ⟨2, 1, "Terminal", "b", none, none, none⟩)] [] [⟨"a"⟩] (by decide)
  refine ⟨?_, ?_, ?_, ?_⟩
  · exact h.2.1 "a" ⟨1, 1, "Terminal", "a", none, none, none⟩ (by decide)
      (by decide)
  · exact h.1 "b" (by decide)
  · rw [h.2.2.1]
    decide
  · exact h.2.2.2 hp
